import Mathlib

/-!
# Verification of the fora_chat_normalizer decision pipeline

A shallow embedding of the repository's core decision logic:

* `ClassificationService` (src/services/classification_service.py):
  the rule engine, the merge of the external (LLM) vote with the rule
  vote, and the top-level `classify_message` with its fallback.
* `ContactService.extract_contact` (src/services/contact_service.py):
  the null-iff-all-empty combinator and the phone digit-run fallback.
* `EntityService.extract_entities` (src/services/entity_service.py):
  the order-preserving deduplication applied after either extraction path.
* `EnrichmentService` (src/services/enrichment_service.py):
  the emergency-number cache and the enrichment bag assembly.

External collaborators (the OpenAI calls, spaCy NER, the phonenumbers
library, the emergency-number HTTP API) are modelled as explicit
outcome parameters, exactly as the spec treats them: each call either
fails or returns a value of the documented shape.  Machine floats are
modelled as rationals; Python dicts as association lists.
-/

namespace ForaChat

/-- The three mutually exclusive message categories
(`MessageCategory` in src/models/schemas.py). -/
inductive Category where
  | high_risk
  | urgent
  | base
deriving DecidableEq, Repr

/-- `self.high_risk_keywords` from `ClassificationService.__init__`. -/
def highRiskKeywords : List String :=
  ["lost passport", "stolen", "hospital", "police", "arrested", "scam",
   "credit card stolen", "medical emergency", "kidnapped", "visa denied",
   "robbery", "assault", "accident", "injured", "fraud", "theft",
   "embassy", "consulate", "detained", "lost documents", "stranded"]

/-- `self.urgent_keywords` from `ClassificationService.__init__`. -/
def urgentKeywords : List String :=
  ["today", "tonight", "tomorrow", "in two hours", "asap", "immediately",
   "first thing", "urgent", "emergency", "right now", "within hours",
   "this morning", "this afternoon", "flight in", "leaving soon",
   "check out", "missed flight", "cancelled", "delayed"]

/-- Python's `str.lower()` on one character (ASCII fragment; the embedded
keyword lists and all inputs of interest are ASCII). -/
def lowerChar (c : Char) : Char :=
  if 'A' ≤ c ∧ c ≤ 'Z' then Char.ofNat (c.toNat + 32) else c

/-- Python's `text.lower()` as a character list. -/
def lowerStr (s : String) : List Char :=
  s.data.map lowerChar

/-- Does `kw` occur as a prefix of the character list `s`? -/
def prefixMatch : List Char → List Char → Bool
  | [], _ => true
  | _ :: _, [] => false
  | c :: cs, d :: ds => (c = d) && prefixMatch cs ds

/-- Does `kw` occur as a contiguous substring of `s`? -/
def substrSearch (kw : List Char) : List Char → Bool
  | [] => prefixMatch kw []
  | c :: rest => prefixMatch kw (c :: rest) || substrSearch kw rest

/-- Python's `keyword in text_lower` substring test. -/
def containsSub (text : List Char) (kw : String) : Bool :=
  substrSearch kw.data text

/-- `sum(1 for keyword in kws if keyword in text_lower)`. -/
def countMatches (kws : List String) (text : List Char) : Nat :=
  (kws.filter (containsSub text)).length

/-- A word character for the purpose of the regex `\b` boundary
(ASCII fragment of Python's `\w`). -/
def isWordChar (c : Char) : Bool :=
  c.isAlphanum || c = '_'

/-- A whitespace character for the regex `\s` class. -/
def isSpaceChar (c : Char) : Bool :=
  c = ' ' || c = '\t' || c = '\n' || c = '\r' || c = '\x0b' || c = '\x0c'

/-- Consume an exact literal from the front of the input. -/
def eatLit : List Char → List Char → Option (List Char)
  | [], s => some s
  | _ :: _, [] => none
  | c :: cs, d :: ds => if c = d then eatLit cs ds else none

/-- Consume `\d+` (one or more digits, greedy; in the embedded patterns the
digits are never followed by another digit alternative, so greedy matching
coincides with backtracking semantics). -/
def eatDigits1 : List Char → Option (List Char)
  | [] => none
  | c :: rest => if c.isDigit then some (rest.dropWhile Char.isDigit) else none

/-- Consume `\s*` (greedy; the continuations in the embedded patterns never
start with whitespace, so greediness is again exact). -/
def eatSpaces (s : List Char) : List Char :=
  s.dropWhile isSpaceChar

/-- The `\b` boundary after a word character: end of input or a
non-word character. -/
def boundaryAfter : List Char → Bool
  | [] => true
  | c :: _ => !isWordChar c

/-- An ordered alternation `(w₁|w₂|…)\b` of word literals, i.e. try each
branch in order and require a word boundary after it. -/
def altWordsB (ws : List String) (s : List Char) : Bool :=
  ws.any fun w =>
    match eatLit w.data s with
    | some r => boundaryAfter r
    | none => false

/-- Matcher for `\bin \d+\s*(hour|hr|h)\b` at one position: the position's
left context is `prev` (none at the start of the string). -/
def matchP1At (prev : Option Char) (s : List Char) : Bool :=
  (match prev with | none => true | some c => !isWordChar c) &&
  (match eatLit "in ".data s with
   | some s1 =>
     match eatDigits1 s1 with
     | some s2 => altWordsB ["hour", "hr", "h"] (eatSpaces s2)
     | none => false
   | none => false)

/-- Matcher for `\bwithin \d+\s*(hour|day|hr|h)\b` at one position. -/
def matchP2At (prev : Option Char) (s : List Char) : Bool :=
  (match prev with | none => true | some c => !isWordChar c) &&
  (match eatLit "within ".data s with
   | some s1 =>
     match eatDigits1 s1 with
     | some s2 => altWordsB ["hour", "day", "hr", "h"] (eatSpaces s2)
     | none => false
   | none => false)

/-- Matcher for `\b(this|tonight|today|tomorrow)\b` at one position. -/
def matchP3At (prev : Option Char) (s : List Char) : Bool :=
  (match prev with | none => true | some c => !isWordChar c) &&
  altWordsB ["this", "tonight", "today", "tomorrow"] s

/-- Matcher for `\bflight\s*(in|at|leaves)\b` at one position. -/
def matchP4At (prev : Option Char) (s : List Char) : Bool :=
  (match prev with | none => true | some c => !isWordChar c) &&
  (match eatLit "flight".data s with
   | some s1 => altWordsB ["in", "at", "leaves"] (eatSpaces s1)
   | none => false)

/-- `re.search`: does the position matcher fire anywhere in the string? -/
def searchFrom (p : Option Char → List Char → Bool) :
    Option Char → List Char → Bool
  | prev, [] => p prev []
  | prev, c :: rest => p prev (c :: rest) || searchFrom p (some c) rest

/-- `sum(1 for pattern in time_patterns if re.search(pattern, text_lower))`
from `_classify_with_rules`. -/
def timeMatchCount (tl : List Char) : Nat :=
  ([matchP1At, matchP2At, matchP3At, matchP4At].filter
    (fun m => searchFrom m none tl)).length

/-- Python's builtin `min` on two floats. -/
def pymin (a b : ℚ) : ℚ :=
  if a ≤ b then a else b

/-- Python's builtin `max` on two floats. -/
def pymax (a b : ℚ) : ℚ :=
  if b ≤ a then a else b

/-- `high_risk_matches` computed by `_classify_with_rules`. -/
def highRiskMatches (text : String) : Nat :=
  countMatches highRiskKeywords (lowerStr text)

/-- `ClassificationService._classify_with_rules`: keyword / time-pattern
scoring with the HIGH_RISK > URGENT > BASE priority. -/
def classifyWithRules (text : String) : Category × ℚ :=
  let tl := lowerStr text
  let hr := countMatches highRiskKeywords tl
  if 0 < hr then
    (Category.high_risk, pymin (mkRat 9 10) (mkRat 6 10 + (hr : ℚ) * mkRat 1 10))
  else
    let um := countMatches urgentKeywords tl
    let tm := timeMatchCount tl
    let total := um + tm
    if 0 < total then
      (Category.urgent, pymin (mkRat 8 10) (mkRat 5 10 + (total : ℚ) * mkRat 1 10))
    else
      (Category.base, mkRat 7 10)

/-- `ClassificationService._combine_classifications`: the conflict-resolution
ladder merging the LLM vote `(category, confidence, reasoning)` with the rule
vote `(category, confidence)`. -/
def combineClassifications (llm : Category × ℚ × String) (rule : Category × ℚ) :
    Category × ℚ × String :=
  let lc := llm.1
  let lconf := llm.2.1
  let lreason := llm.2.2
  let rc := rule.1
  let rconf := rule.2
  if lc = rc then
    (lc, pymax lconf rconf, "LLM + Rules agree: " ++ lreason)
  else if rc = Category.high_risk ∨ lc = Category.high_risk then
    if rc = Category.high_risk then
      (Category.high_risk, rconf, "Rules detected high-risk (overrides LLM)")
    else
      (Category.high_risk, lconf, "LLM detected high-risk: " ++ lreason)
  else if lc = Category.urgent ∧ rc = Category.base then
    if mkRat 6 10 < lconf then
      (Category.urgent, lconf, "LLM detected urgency: " ++ lreason)
    else
      (Category.base, mkRat 6 10, "Low confidence urgency, defaulting to base")
  else if rc = Category.urgent ∧ lc = Category.base then
    if mkRat 6 10 < rconf then
      (Category.urgent, rconf, "Rules detected time-sensitive urgency")
    else
      (Category.base, mkRat 6 10, "Low confidence urgency, defaulting to base")
  else if rconf < lconf then
    (lc, lconf, "LLM higher confidence: " ++ lreason)
  else
    (rc, rconf, "Rules higher confidence")

/-- `ClassificationService.classify_message`.  The external path
`_classify_with_llm` is modelled by `llmOutcome`: `none` when the call
fails (timeout, non-JSON output, unknown category literal — all raise
inside the `try` block), `some (category, confidence, reasoning)` when it
parses.  `_classify_with_llm` performs no range check on the confidence,
so any rational can arrive here.  Constructing the final
`ClassificationResult` validates `confidence` against pydantic's
`ge=0.0, le=1.0` bounds inside the same `try`, hence an out-of-range
merged confidence also lands in the rule-based fallback branch. -/
def classifyMessage (text : String) (llmOutcome : Option (Category × ℚ × String)) :
    Category × ℚ × String :=
  match llmOutcome with
  | some llm =>
    let rule := classifyWithRules text
    let combined := combineClassifications llm rule
    if mkRat 0 1 ≤ combined.2.1 ∧ combined.2.1 ≤ mkRat 1 1 then
      combined
    else
      (rule.1, rule.2, "Fallback to rule-based classification due to LLM error")
  | none =>
    let rule := classifyWithRules text
    (rule.1, rule.2, "Fallback to rule-based classification due to LLM error")

/-- If the rule vote is HIGH_RISK, the merge returns HIGH_RISK
(either through the agreement branch or the high-risk priority branch). -/
theorem combine_fst_high (llm : Category × ℚ × String) (rule : Category × ℚ)
    (h : rule.1 = Category.high_risk) :
    (combineClassifications llm rule).1 = Category.high_risk := by
  rcases llm with ⟨lc, lconf, lreason⟩
  rcases rule with ⟨rc, rconf⟩
  simp only at h
  subst h
  cases lc <;> simp [combineClassifications]

/-- If the text contains a HIGH_RISK keyword, the rule engine votes
HIGH_RISK. -/
theorem rules_fst_high (text : String) (h : 0 < highRiskMatches text) :
    (classifyWithRules text).1 = Category.high_risk := by
  unfold highRiskMatches at h
  simp only [classifyWithRules, if_pos h]

/-- **C1.** For every input text containing at least one keyword from the
fixed HIGH_RISK keyword list, `classify_message` returns category HIGH_RISK
and never BASE or URGENT, for every possible outcome of the external
classification vote (any category and confidence it returns, or its outright
failure) and regardless of co-occurring URGENT keywords. -/
theorem claim_C1 (text : String) (llmOutcome : Option (Category × ℚ × String))
    (h : 0 < highRiskMatches text) :
    (classifyMessage text llmOutcome).1 = Category.high_risk := by
  have hrule := rules_fst_high text h
  cases llmOutcome with
  | none => simpa [classifyMessage] using hrule
  | some llm =>
    simp only [classifyMessage]
    split
    · exact combine_fst_high llm _ hrule
    · exact hrule

/-- Witness for C1: the text "my wallet was stolen in paris last night"
contains the HIGH_RISK keyword "stolen", and even an external BASE vote of
confidence 0.95 cannot pull the result away from HIGH_RISK. -/
theorem claim_C1_witness :
    (classifyMessage "my wallet was stolen in paris last night"
      (some (Category.base, mkRat 19 20, "external vote"))).1 = Category.high_risk :=
  claim_C1 "my wallet was stolen in paris last night"
    (some (Category.base, mkRat 19 20, "external vote")) (by decide)

/-- **C2.** In the classification merge, whenever one vote is URGENT and the
other is BASE (in either assignment of sides), the result is URGENT with the
URGENT-voting side's confidence if and only if that side's confidence is
strictly greater than 0.6, and otherwise the result is BASE with confidence
exactly 0.6; in particular, rule vote BASE(0.7) combined with external vote
URGENT(0.55) yields BASE with confidence 0.6. -/
theorem claim_C2 :
    (∀ (lconf rconf : ℚ) (lreason : String),
        ((combineClassifications (Category.urgent, lconf, lreason)
            (Category.base, rconf)).1 = Category.urgent ↔ mkRat 6 10 < lconf)
      ∧ (mkRat 6 10 < lconf →
          combineClassifications (Category.urgent, lconf, lreason)
              (Category.base, rconf)
            = (Category.urgent, lconf, "LLM detected urgency: " ++ lreason))
      ∧ (¬ mkRat 6 10 < lconf →
          combineClassifications (Category.urgent, lconf, lreason)
              (Category.base, rconf)
            = (Category.base, mkRat 6 10,
               "Low confidence urgency, defaulting to base")))
  ∧ (∀ (rconf lconf : ℚ) (lreason : String),
        ((combineClassifications (Category.base, lconf, lreason)
            (Category.urgent, rconf)).1 = Category.urgent ↔ mkRat 6 10 < rconf)
      ∧ (mkRat 6 10 < rconf →
          combineClassifications (Category.base, lconf, lreason)
              (Category.urgent, rconf)
            = (Category.urgent, rconf, "Rules detected time-sensitive urgency"))
      ∧ (¬ mkRat 6 10 < rconf →
          combineClassifications (Category.base, lconf, lreason)
              (Category.urgent, rconf)
            = (Category.base, mkRat 6 10,
               "Low confidence urgency, defaulting to base")))
  ∧ combineClassifications (Category.urgent, 11/20, "llm vote")
        (Category.base, mkRat 7 10)
      = (Category.base, mkRat 6 10, "Low confidence urgency, defaulting to base") := by
  refine ⟨?_, ?_, ?_⟩
  · intro lconf rconf lreason
    by_cases h : mkRat 6 10 < lconf <;> simp [combineClassifications, h]
  · intro rconf lconf lreason
    by_cases h : mkRat 6 10 < rconf <;> simp [combineClassifications, h]
  · with_unfolding_all decide

/-- Witness for C2: an URGENT external vote of confidence 0.7 against a
BASE rule vote yields URGENT (0.7 > 0.6). -/
theorem claim_C2_witness :
    (combineClassifications (Category.urgent, mkRat 7 10, "llm vote")
        (Category.base, mkRat 1 2)).1 = Category.urgent :=
  (claim_C2.1 (mkRat 7 10) (mkRat 1 2) "llm vote").1.mpr (by with_unfolding_all decide)

/-- Counterexample to C3 as stated.  The claim lists an out-of-range
confidence from the external source among the failures that must produce
the rule-engine result together with a fallback reasoning string.  But
`_classify_with_llm` never range-checks the parsed confidence, so the
merge still runs: on the text "asap" (rule vote URGENT with confidence
exactly 0.6) an external BASE vote with out-of-range confidence -0.2
drives the merge into the low-confidence-urgency branch, and the final
result is BASE — not the rule engine's URGENT — with a reasoning string
that does not mention any fallback. -/
theorem claim_C3_counterexample :
    (mkRat (-1) 5 < mkRat 0 1 ∨ mkRat 1 1 < mkRat (-1) 5)
  ∧ classifyMessage "asap" (some (Category.base, mkRat (-1) 5, "llm vote"))
      = (Category.base, mkRat 3 5, "Low confidence urgency, defaulting to base")
  ∧ classifyWithRules "asap" = (Category.urgent, mkRat 3 5) := by
  refine ⟨Or.inl (by with_unfolding_all decide), ?_, ?_⟩ <;> with_unfolding_all decide

/-- **C3 (amended).** `classify_message` never raises an exception to its
caller; on a failure that aborts the external call itself (timeout,
non-JSON output, unknown category literal — modelled as the absence of an
external vote) it returns a result whose category and confidence are
exactly those of the rule engine, with a reasoning string stating that the
fallback occurred.  (An out-of-range external confidence is *not* such a
failure: it is parsed successfully and only triggers the same fallback if
the merged confidence itself ends up outside [0,1].) -/
theorem claim_C3_amended (text : String) :
    classifyMessage text none
      = ((classifyWithRules text).1, (classifyWithRules text).2,
         "Fallback to rule-based classification due to LLM error") := rfl

/-! ## ContactService (src/services/contact_service.py) -/

/-- `ContactInfo` from src/models/schemas.py: five optional string fields. -/
structure ContactInfo where
  first_name : Option String
  last_name : Option String
  email : Option String
  phone : Option String
  zip : Option String
deriving DecidableEq, Repr

/-- Python truthiness of an optional string: `None` and `""` are falsy. -/
def truthy : Option String → Bool
  | none => false
  | some s => !(s = "")

/-- `if value: contact.field = value` — keep a value only when truthy. -/
def guardTruthy (a : Option String) : Option String :=
  if truthy a then a else none

/-- `re.sub(r"[^\d]", "", text)`: the digit characters of the text,
in order, with everything else deleted. -/
def stripNonDigits (text : String) : List Char :=
  text.data.filter Char.isDigit

/-- The negative lookahead `(?!\d)`: succeeds at end of input or when the
next character is not a digit. -/
def lookaheadNotDigit : List Char → Bool
  | [] => true
  | c :: _ => !c.isDigit

/-- One attempt of `(\d{10})(?!\d)` at the current position. -/
def tenDigitsHere (s : List Char) : Option (List Char) :=
  let pre := s.take 10
  if pre.length = 10 && pre.all Char.isDigit && lookaheadNotDigit (s.drop 10) then
    some pre
  else
    none

/-- `re.search(r"(\d{10})(?!\d)", s)`: the leftmost match. -/
def searchTenDigits : List Char → Option (List Char)
  | [] => none
  | c :: rest =>
    match tenDigitsHere (c :: rest) with
    | some m => some m
    | none => searchTenDigits rest

/-- `f"{seq[:3]}-{seq[3:6]}-{seq[6:]}"`. -/
def formatDashed (seq : List Char) : String :=
  String.mk (seq.take 3) ++ "-" ++ String.mk ((seq.drop 3).take 3)
    ++ "-" ++ String.mk (seq.drop 6)

/-- `ContactService._extract_phone`.  The phonenumbers library path is the
external phone-parsing capability of the spec and is modelled by
`capResult`: `some p` when the library is importable and its matcher finds
a valid number (`p` being the string the loop returns), `none` when the
library is unavailable, raises, or finds no valid number — in which case
the source falls through to the digit-run fallback:
`digits = re.sub(r"[^\d]", "", text)` followed by
`re.search(r"(\d{10})(?!\d)", digits)` and dashed formatting. -/
def extractPhone (capResult : Option String) (text : String) : Option String :=
  match capResult with
  | some p => some p
  | none =>
    match searchTenDigits (stripNonDigits text) with
    | some seq => some (formatDashed seq)
    | none => none

/-- `ContactService.extract_contact` (the combinator of lines 210-230).
The five sub-extraction results are passed in: `email` is the result of
`_extract_email`, `phone` of `_extract_phone`, `zipc` of `_extract_zip`,
and `first`/`last` of `_extract_name` (whose tiers consult the optional
spaCy NER capability and are therefore external-outcome-dependent).
The source sets `contact.email/phone/zip` unconditionally, sets the name
fields only when truthy, and returns `None` unless
`any([contact.email, contact.phone, contact.zip, contact.first_name,
contact.last_name])`. -/
def extractContact (email phone zipc first last : Option String) :
    Option ContactInfo :=
  let c : ContactInfo :=
    { email := email, phone := phone, zip := zipc,
      first_name := guardTruthy first,
      last_name := guardTruthy last }
  if truthy c.email || truthy c.phone || truthy c.zip ||
      truthy c.first_name || truthy c.last_name then
    some c
  else
    none

/-- `truthy none` is false. -/
theorem truthy_none : truthy none = false := rfl

/-- Setting a field only when truthy does not change its truthiness. -/
theorem truthy_guard (a : Option String) :
    truthy (guardTruthy a) = truthy a := by
  cases h : truthy a <;> simp [guardTruthy, h, truthy_none]

/-- **C4.** For every input text, `extract_contact` returns null if and only
if every one of the five fields first_name, last_name, email, phone, zip
would be empty; it never returns a `ContactRecord` whose fields are all
empty.  (Quantifying over the five sub-extraction outcomes covers every
input text and every behaviour of the optional NER / phone capabilities.) -/
theorem claim_C4 (email phone zipc first last : Option String) :
    (extractContact email phone zipc first last = none ↔
      (truthy email = false ∧ truthy phone = false ∧ truthy zipc = false ∧
       truthy first = false ∧ truthy last = false))
  ∧ (∀ c, extractContact email phone zipc first last = some c →
      (truthy c.email || truthy c.phone || truthy c.zip ||
       truthy c.first_name || truthy c.last_name) = true) := by
  constructor
  · simp only [extractContact]
    split
    next hcond =>
      simp only [truthy_guard] at hcond
      constructor
      · intro h; exact Option.noConfusion h
      · rintro ⟨he, hp, hz, h1, h2⟩
        rw [he, hp, hz, h1, h2] at hcond
        simp at hcond
    next hcond =>
      simp only [truthy_guard] at hcond
      simp only [Bool.or_eq_true, not_or, Bool.not_eq_true] at hcond
      obtain ⟨⟨⟨⟨he, hp⟩, hz⟩, h1⟩, h2⟩ := hcond
      exact ⟨fun _ => ⟨he, hp, hz, h1, h2⟩, fun _ => rfl⟩
  · intro c hc
    simp only [extractContact] at hc
    split at hc
    next hcond =>
      cases Option.some.inj hc
      exact hcond
    next => exact Option.noConfusion hc

/-- Witness for C4: a message yielding only an email produces a record whose
fields are not all empty. -/
theorem claim_C4_witness :
    (truthy (ContactInfo.email ⟨none, none, some "ana@example.com", none, none⟩) ||
     truthy (ContactInfo.phone ⟨none, none, some "ana@example.com", none, none⟩) ||
     truthy (ContactInfo.zip ⟨none, none, some "ana@example.com", none, none⟩) ||
     truthy (ContactInfo.first_name ⟨none, none, some "ana@example.com", none, none⟩) ||
     truthy (ContactInfo.last_name ⟨none, none, some "ana@example.com", none, none⟩)) = true :=
  (claim_C4 (some "ana@example.com") none none none none).2
    ⟨none, none, some "ana@example.com", none, none⟩ (by with_unfolding_all decide)

/-- Modelled from the spec's words, for the refinement comparison of C6
("the first run of exactly 10 consecutive digits anywhere in the text"):
the maximal runs of consecutive digit characters of a text, in order. -/
def digitRuns : List Char → List (List Char)
  | [] => []
  | c :: rest =>
    let rs := digitRuns rest
    if c.isDigit then
      match rest with
      | [] => [[c]]
      | d :: _ =>
        if d.isDigit then
          match rs with
          | r :: rs' => (c :: r) :: rs'
          | [] => [[c]]
        else
          [c] :: rs
    else
      rs

/-- Modelled from the spec's words: the first maximal digit run of length
exactly 10, dashed. -/
def specPhoneFirstRunOf10 (text : String) : Option String :=
  (((digitRuns text.data).filter (fun r => r.length = 10)).head?).map formatDashed

/-- Counterexample to C6 as stated.  On the text "12345678901" (one run of
11 consecutive digits) there is no run of exactly 10 consecutive digits, so
the claim demands a null phone; the code instead strips non-digits and
matches `(\d{10})(?!\d)`, which can only succeed where no digit follows —
returning the LAST ten digits "234-567-8901" (nor is the result the first
ten digits). -/
theorem claim_C6_counterexample :
    extractPhone none "12345678901" = some "234-567-8901"
  ∧ specPhoneFirstRunOf10 "12345678901" = none
  ∧ extractPhone none "12345678901" ≠ some "123-456-7890" := by
  refine ⟨?_, ?_, ?_⟩ <;> with_unfolding_all decide

/-- On an all-digit string — which is exactly what the fallback feeds it —
`re.search(r"(\d{10})(?!\d)", s)` can only match where no digit follows,
i.e. at the very end: it returns the last 10 characters when there are at
least 10, and fails otherwise. -/
theorem searchTen_allDigits (s : List Char) (h : ∀ c ∈ s, c.isDigit = true) :
    searchTenDigits s =
      if 10 ≤ s.length then some (s.drop (s.length - 10)) else none := by
  induction s with
  | nil => simp [searchTenDigits]
  | cons c rest ih =>
    have hrest : ∀ x ∈ rest, x.isDigit = true :=
      fun x hx => h x (List.mem_cons_of_mem _ hx)
    have hstep : searchTenDigits (c :: rest)
        = match tenDigitsHere (c :: rest) with
          | some m => some m
          | none => searchTenDigits rest := rfl
    by_cases hlen : 10 ≤ (c :: rest).length
    · by_cases heq : (c :: rest).length = 10
      · have htake : (c :: rest).take 10 = c :: rest :=
          List.take_of_length_le (by omega)
        have hdrop : (c :: rest).drop 10 = [] :=
          List.drop_eq_nil_of_le (by omega)
        have hc1 : ((c :: rest).take 10).length = 10 := by rw [htake]; exact heq
        have hall : ((c :: rest).take 10).all Char.isDigit = true := by
          rw [htake]; exact List.all_eq_true.mpr h
        have hlook : lookaheadNotDigit ((c :: rest).drop 10) = true := by
          rw [hdrop]; rfl
        have hhere : tenDigitsHere (c :: rest) = some (c :: rest) := by
          dsimp only [tenDigitsHere]
          rw [decide_eq_true hc1, hall, hlook, Bool.true_and, Bool.true_and,
            if_pos rfl, htake]
        have hzero : (c :: rest).length - 10 = 0 := by omega
        rw [hstep, hhere, if_pos hlen, hzero, List.drop_zero]
      · have hlen9 : 10 ≤ rest.length := by
          simp only [List.length_cons] at hlen heq; omega
        have hne : (c :: rest).drop 10 ≠ [] := by
          intro hnil
          have hld := List.length_drop 10 (c :: rest)
          rw [hnil] at hld
          simp only [List.length_nil, List.length_cons] at hld
          omega
        obtain ⟨d, t, hdt⟩ := List.exists_cons_of_ne_nil hne
        have hd : d.isDigit = true :=
          h d (List.drop_subset 10 (c :: rest) (hdt ▸ List.mem_cons_self d t))
        have hlook : lookaheadNotDigit ((c :: rest).drop 10) = false := by
          rw [hdt]
          simp [lookaheadNotDigit, hd]
        have hhere : tenDigitsHere (c :: rest) = none := by
          dsimp only [tenDigitsHere]
          rw [hlook, Bool.and_false, if_neg (by simp)]
        have harith : (c :: rest).length - 10 = (rest.length - 10) + 1 := by
          simp only [List.length_cons]; omega
        rw [hstep, hhere, ih hrest, if_pos hlen9, if_pos hlen, harith,
          List.drop_succ_cons]
    · have hlen9 : ¬ 10 ≤ rest.length := by
        simp only [List.length_cons] at hlen; omega
      have htake : (c :: rest).take 10 = c :: rest :=
        List.take_of_length_le (by omega)
      have hne10 : ((c :: rest).take 10).length ≠ 10 := by
        rw [htake]
        simp only [List.length_cons] at hlen ⊢
        omega
      have hhere : tenDigitsHere (c :: rest) = none := by
        dsimp only [tenDigitsHere]
        rw [decide_eq_false hne10, Bool.false_and, Bool.false_and,
          if_neg (by simp)]
      rw [hstep, hhere, ih hrest, if_neg hlen9, if_neg hlen]

/-- **C6 (amended).** When the phone-parsing capability is unavailable or
yields no valid number, the extracted phone equals the *last* run of 10
digits of the digit sequence obtained by stripping all non-digit characters
from the text — `(\d{10})(?!\d)` can only match at the end of the all-digit
string — formatted as DDD-DDD-DDDD, and is null when the text contains
fewer than 10 digits in total. -/
theorem claim_C6_amended (text : String) :
    extractPhone none text =
      (if 10 ≤ (stripNonDigits text).length then
        some (formatDashed
          ((stripNonDigits text).drop ((stripNonDigits text).length - 10)))
      else none) := by
  have hd : ∀ c ∈ stripNonDigits text, c.isDigit = true := by
    intro c hc
    exact (List.mem_filter.mp hc).2
  simp only [extractPhone, searchTen_allDigits _ hd]
  by_cases h10 : 10 ≤ (stripNonDigits text).length <;> simp [h10]

/-! ## EntityService (src/services/entity_service.py) -/

/-- `EntityType` from src/models/schemas.py. -/
inductive EntityType where
  | city
  | hotel
  | restaurant
deriving DecidableEq, Repr

/-- `Entity` from src/models/schemas.py. -/
structure Entity where
  type : EntityType
  value : String
deriving DecidableEq, Repr

/-- `entity_key = (entity.type, entity.value.lower())` from the
deduplication loop of `extract_entities`. -/
def entityKey (e : Entity) : EntityType × List Char :=
  (e.type, lowerStr e.value)

/-- The deduplication loop of `extract_entities` (lines 87-95): walk the
candidate list, appending an entity to the output only when its
`(type, value.lower())` key is not in `seen`, and recording the key. -/
def dedupFrom (seen : List (EntityType × List Char)) :
    List Entity → List Entity
  | [] => []
  | e :: rest =>
    if entityKey e ∈ seen then dedupFrom seen rest
    else e :: dedupFrom (entityKey e :: seen) rest

/-- The loop started with `unique_entities = []`, `seen = set()`. -/
def dedupEntities (l : List Entity) : List Entity :=
  dedupFrom [] l

/-- The candidate list entering the dedup loop: the primary (OpenAI)
entities when the structured-extraction call succeeded with a non-empty
list (Python's `if openai_entities:`), else the spaCy fallback's entities
in the order `_extract_entities_with_spacy` extends them — cities, hotels,
restaurants.  The spaCy sub-extractors (`_extract_cities_with_spacy` etc.)
return `list(set(...))`, whose element order Python leaves unspecified, so
their outputs are modelled as arbitrary string lists. -/
def entityCandidates (openaiEntities : List Entity)
    (cities hotels restaurants : List String) : List Entity :=
  if openaiEntities ≠ [] then
    openaiEntities
  else
    (cities.map (fun v => Entity.mk EntityType.city v))
      ++ (hotels.map (fun v => Entity.mk EntityType.hotel v))
      ++ (restaurants.map (fun v => Entity.mk EntityType.restaurant v))

/-- `EntityService.extract_entities`: choose the primary or fallback
candidate list, then deduplicate preserving order. -/
def extractEntities (openaiEntities : List Entity)
    (cities hotels restaurants : List String) : List Entity :=
  dedupEntities (entityCandidates openaiEntities cities hotels restaurants)

/-- Stable first-occurrence deduplication as the spec words it: keep each
element and drop every later element with an equal key. -/
def specStableDedup : List Entity → List Entity
  | [] => []
  | e :: rest =>
    e :: specStableDedup (rest.filter (fun x => decide (entityKey x ≠ entityKey e)))
termination_by l => l.length
decreasing_by
  simp only [List.length_cons]
  exact Nat.lt_succ_of_le (List.length_filter_le _ _)

/-- A key already recorded as seen never reappears in the loop's output. -/
theorem dedupFrom_not_mem_of_seen (l : List Entity) :
    ∀ seen k, k ∈ seen → k ∉ (dedupFrom seen l).map entityKey := by
  induction l with
  | nil => intro seen k _; simp [dedupFrom]
  | cons e rest ih =>
    intro seen k hk
    by_cases he : entityKey e ∈ seen
    · rw [dedupFrom, if_pos he]
      exact ih seen k hk
    · rw [dedupFrom, if_neg he]
      simp only [List.map_cons, List.mem_cons, not_or]
      constructor
      · intro hke; exact he (hke ▸ hk)
      · exact ih (entityKey e :: seen) k (List.mem_cons_of_mem _ hk)

/-- The loop's output never contains two entities with the same
`(type, lowercase value)` key. -/
theorem dedupFrom_keys_nodup (l : List Entity) :
    ∀ seen, ((dedupFrom seen l).map entityKey).Nodup := by
  induction l with
  | nil => intro seen; simp [dedupFrom]
  | cons e rest ih =>
    intro seen
    by_cases he : entityKey e ∈ seen
    · rw [dedupFrom, if_pos he]; exact ih seen
    · rw [dedupFrom, if_neg he]
      simp only [List.map_cons, List.nodup_cons]
      exact ⟨dedupFrom_not_mem_of_seen rest (entityKey e :: seen)
        (entityKey e) (List.mem_cons_self _ _), ih (entityKey e :: seen)⟩

/-- The loop's output is a sublist of its input: relative order is
preserved and nothing new is invented. -/
theorem dedupFrom_sublist (l : List Entity) :
    ∀ seen, (dedupFrom seen l).Sublist l := by
  induction l with
  | nil => intro seen; simp [dedupFrom]
  | cons e rest ih =>
    intro seen
    by_cases he : entityKey e ∈ seen
    · rw [dedupFrom, if_pos he]
      exact (ih seen).trans (List.sublist_cons_self e rest)
    · rw [dedupFrom, if_neg he]
      exact (ih (entityKey e :: seen)).cons₂ e

/-- Every candidate's key survives into the loop's output (or was already
seen). -/
theorem dedupFrom_complete (l : List Entity) :
    ∀ seen x, x ∈ l →
      entityKey x ∈ (dedupFrom seen l).map entityKey ∨ entityKey x ∈ seen := by
  induction l with
  | nil => intro seen x hx; cases hx
  | cons e rest ih =>
    intro seen x hx
    by_cases he : entityKey e ∈ seen
    · rw [dedupFrom, if_pos he]
      rcases List.mem_cons.mp hx with rfl | hx'
      · exact Or.inr he
      · exact ih seen x hx'
    · rw [dedupFrom, if_neg he]
      simp only [List.map_cons, List.mem_cons]
      rcases List.mem_cons.mp hx with rfl | hx'
      · exact Or.inl (Or.inl rfl)
      · rcases ih (entityKey e :: seen) x hx' with h | h
        · exact Or.inl (Or.inr h)
        · rcases List.mem_cons.mp h with h' | h'
          · exact Or.inl (Or.inl h')
          · exact Or.inr h'

/-- The loop computes exactly the spec's stable first-occurrence dedup of
the candidates not yet seen. -/
theorem dedupFrom_eq_spec (l : List Entity) :
    ∀ seen, dedupFrom seen l
      = specStableDedup (l.filter (fun x => decide (entityKey x ∉ seen))) := by
  induction l with
  | nil => intro seen; rw [List.filter_nil, dedupFrom, specStableDedup]
  | cons e rest ih =>
    intro seen
    by_cases he : entityKey e ∈ seen
    · rw [dedupFrom, if_pos he, List.filter_cons_of_neg (by simpa using he)]
      exact ih seen
    · rw [dedupFrom, if_neg he, List.filter_cons_of_pos (by simpa using he),
        specStableDedup, List.filter_filter]
      rw [ih (entityKey e :: seen)]
      congr 2
      apply List.filter_congr
      intro x _
      by_cases hx : entityKey x = entityKey e
      · simp [hx, he]
      · by_cases hs : entityKey x ∈ seen <;> simp [hx, hs]

/-- **C5.** For every input text, the list returned by `extract_entities`
contains no two elements with equal `(type, lowercase(value))`; the first
occurrence of each such key is kept, and the relative order of first
occurrences in the pre-deduplication candidate sequence is preserved, on
both the primary external path and the NER/pattern fallback path
(quantifying over the primary outcome and the fallback sub-extractor
outputs covers both paths and every input text). -/
theorem claim_C5 (openaiEntities : List Entity)
    (cities hotels restaurants : List String) :
    ((extractEntities openaiEntities cities hotels restaurants).map
        entityKey).Nodup
  ∧ extractEntities openaiEntities cities hotels restaurants
      = specStableDedup (entityCandidates openaiEntities cities hotels
          restaurants)
  ∧ (extractEntities openaiEntities cities hotels restaurants).Sublist
      (entityCandidates openaiEntities cities hotels restaurants)
  ∧ ∀ e ∈ entityCandidates openaiEntities cities hotels restaurants,
      entityKey e ∈ (extractEntities openaiEntities cities hotels
        restaurants).map entityKey := by
  refine ⟨dedupFrom_keys_nodup _ [], ?_, dedupFrom_sublist _ [], ?_⟩
  · rw [extractEntities, dedupEntities, dedupFrom_eq_spec]
    congr 1
    rw [List.filter_eq_self]
    intro a _
    simp
  · intro e he
    rcases dedupFrom_complete _ [] e he with h | h
    · exact h
    · cases h

/-- Witness for C5: duplicate keys "Paris"/"paris" on the primary path
collapse to the first occurrence. -/
theorem claim_C5_witness :
    entityKey (Entity.mk EntityType.city "Paris")
      ∈ (extractEntities
          [Entity.mk EntityType.city "Paris",
           Entity.mk EntityType.city "paris",
           Entity.mk EntityType.hotel "Ritz"] [] [] []).map entityKey :=
  (claim_C5 [Entity.mk EntityType.city "Paris",
    Entity.mk EntityType.city "paris",
    Entity.mk EntityType.hotel "Ritz"] [] [] []).2.2.2
    (Entity.mk EntityType.city "Paris") (by with_unfolding_all decide)

/-! ## EnrichmentService (src/services/enrichment_service.py) -/

/-- The process-wide `self.emergency_cache` dict, country code ↦ stored
value.  The stored value is itself optional: the source also caches a
Python `None` for a country it could not resolve, and `in` tests key
presence regardless of the stored value. -/
abbrev EmergencyCache := List (String × Option String)

/-- Python `country_code in self.emergency_cache` plus the subsequent
indexing: `some v` when the key is present with stored value `v`. -/
def cacheGet : EmergencyCache → String → Option (Option String)
  | [], _ => none
  | (k, w) :: rest, code => if k = code then some w else cacheGet rest code

/-- Python `self.emergency_cache[country_code] = value`. -/
def cacheSet : EmergencyCache → String → Option String → EmergencyCache
  | [], code, v => [(code, v)]
  | (k, w) :: rest, code, v =>
    if k = code then (code, v) :: rest else (k, w) :: cacheSet rest code v

/-- The `fallback_numbers` table inside `_get_emergency_number`. -/
def fallbackNumbers : List (String × String) :=
  [("US", "911"), ("CA", "911"), ("MX", "911"), ("GB", "999"), ("FR", "112"),
   ("IT", "112"), ("ES", "112"), ("NL", "112"), ("AT", "112"), ("CH", "112"),
   ("BE", "112"), ("PT", "112"), ("IE", "112"), ("DK", "112"), ("SE", "112"),
   ("NO", "112"), ("FI", "112"), ("CZ", "112"), ("HU", "112"), ("GR", "112"),
   ("PL", "112"), ("SK", "112"), ("SI", "112"), ("HR", "112"), ("LU", "112"),
   ("DE", "112"), ("ZA", "112")]

/-- `fallback_numbers.get(country_code)`: `None` for an unknown code. -/
def fallbackGet (code : String) : Option String :=
  (fallbackNumbers.find? (fun p => p.1 == code)).map Prod.snd

/-- One `Dispatch`/`Police` sub-object of the API payload: its `All`,
`GSM` and `Fixed` lists.  A missing field (`get` returning `None`) behaves
under Python `or` exactly like `[]`, so both are modelled as `[]`. -/
structure NumberLists where
  all : List String
  gsm : List String
  fixed : List String
deriving DecidableEq, Repr

/-- The parsed `data` field of a 200 response of emergencynumberapi.com. -/
structure ApiData where
  member112 : Bool
  dispatch : NumberLists
  police : NumberLists
deriving DecidableEq, Repr

/-- One `requests.get(url, timeout=3)` attempt: any failure (exception,
timeout, non-200 status code) or a parsed JSON payload. -/
inductive ApiOutcome where
  | failure
  | success (d : ApiData)
deriving DecidableEq, Repr

/-- `x or y` on Python lists: the first non-empty one. -/
def orList (a b : List String) : List String :=
  if a ≠ [] then a else b

/-- The parsing portion of `_get_emergency_number` (lines 238-252): the
number the API branch *returns*, if any.  When `Member_112` is true the
source assigns `emergency_data = ['112']`, but the `return number` block
sits inside the *else* branch, so that assignment is dead and control
falls through to the fallback table — hence `none` here. -/
def parseApi : ApiOutcome → Option String
  | ApiOutcome.failure => none
  | ApiOutcome.success d =>
    if d.member112 then
      none
    else
      let ed := orList d.dispatch.all (orList d.dispatch.gsm d.dispatch.fixed)
      let ed := if ed = [] then
          orList d.police.all (orList d.police.gsm d.police.fixed)
        else ed
      ed.head?

/-- `EnrichmentService._get_emergency_number`: cache check, one API
attempt, fallback table, permanent caching of whatever was found
(including `None`).  Returns the resolved value, the updated cache, and
whether the external API was consulted. -/
def getEmergencyNumber (cache : EmergencyCache) (code : String)
    (api : ApiOutcome) : Option String × EmergencyCache × Bool :=
  match cacheGet cache code with
  | some v => (v, cache, false)
  | none =>
    match parseApi api with
    | some n => (some n, cacheSet cache code (some n), true)
    | none =>
      let fb := fallbackGet code
      (fb, cacheSet cache code fb, true)

/-- Writing a key makes it readable. -/
theorem cacheGet_cacheSet_self (cache : EmergencyCache) (code : String)
    (v : Option String) : cacheGet (cacheSet cache code v) code = some v := by
  induction cache with
  | nil => simp [cacheSet, cacheGet]
  | cons kv rest ih =>
    obtain ⟨k, w⟩ := kv
    by_cases h : k = code
    · rw [cacheSet, if_pos h, cacheGet, if_pos rfl]
    · rw [cacheSet, if_neg h, cacheGet, if_neg h]
      exact ih

/-- After any resolution, the returned value is what the cache now stores
under the code. -/
theorem getEmergencyNumber_caches (cache : EmergencyCache) (code : String)
    (api : ApiOutcome) :
    cacheGet (getEmergencyNumber cache code api).2.1 code
      = some (getEmergencyNumber cache code api).1 := by
  cases hcg : cacheGet cache code with
  | some w =>
    simp only [getEmergencyNumber, hcg]
  | none =>
    cases hp : parseApi api with
    | some n =>
      simp only [getEmergencyNumber, hcg, hp]
      exact cacheGet_cacheSet_self cache code (some n)
    | none =>
      simp only [getEmergencyNumber, hcg, hp]
      exact cacheGet_cacheSet_self cache code (fallbackGet code)

/-- A cache hit returns the stored value without touching the cache or the
API. -/
theorem getEmergencyNumber_hit (cache : EmergencyCache) (code : String)
    (api : ApiOutcome) (v : Option String) (h : cacheGet cache code = some v) :
    getEmergencyNumber cache code api = (v, cache, false) := by
  simp only [getEmergencyNumber, h]

/-- **C7.** For every country code, once an emergency number has been
resolved for it (by external lookup or by the fixed fallback table), every
subsequent resolution of the same country code returns that same cached
value and performs no further external lookup call (the third component of
the result is the made-an-API-call flag). -/
theorem claim_C7 (cache : EmergencyCache) (code : String)
    (api₁ api₂ : ApiOutcome) (v : String)
    (h : (getEmergencyNumber cache code api₁).1 = some v) :
    getEmergencyNumber (getEmergencyNumber cache code api₁).2.1 code api₂
      = (some v, (getEmergencyNumber cache code api₁).2.1, false) := by
  apply getEmergencyNumber_hit
  rw [getEmergencyNumber_caches, h]

/-- Witness for C7: after resolving "FR" against a failing API (fallback
"112"), a second resolution returns the cached "112" without an API call. -/
theorem claim_C7_witness :
    getEmergencyNumber
        (getEmergencyNumber [] "FR" ApiOutcome.failure).2.1 "FR"
        ApiOutcome.failure
      = (some "112", (getEmergencyNumber [] "FR" ApiOutcome.failure).2.1,
         false) :=
  claim_C7 [] "FR" ApiOutcome.failure ApiOutcome.failure "112"
    (by with_unfolding_all decide)

/-- **C8** (the claim is right, the code has a slip): when the external
lookup succeeds and its payload marks the country as a 112 member, the
source computes `emergency_data = ['112']` but never returns it — the
`return` block is indented under the *else* branch — so it falls through
to the fixed fallback table.  For "GB" (a 112 member whose fallback entry
is "999") the code returns and permanently caches "999", not "112". -/
theorem claim_C8_code_eval :
    getEmergencyNumber [] "GB"
        (ApiOutcome.success ⟨true, ⟨[], [], []⟩, ⟨[], [], []⟩⟩)
      = (some "999", [("GB", some "999")], true)
  ∧ (getEmergencyNumber [] "GB"
        (ApiOutcome.success ⟨true, ⟨[], [], []⟩, ⟨[], [], []⟩⟩)).1
      ≠ some "112" := by
  constructor <;> with_unfolding_all decide

/-- **C10.** For a country code absent from the fixed fallback table, a
failed external lookup stores `None` in the cache under that code, and
every subsequent resolution for that code returns the cached `None`
without retrying the external service: unsuccessful resolutions are
negatively cached and never retried. -/
theorem claim_C10 (cache : EmergencyCache) (code : String)
    (api₂ : ApiOutcome) (hfb : fallbackGet code = none)
    (hmiss : cacheGet cache code = none) :
    (getEmergencyNumber cache code ApiOutcome.failure).1 = none
  ∧ cacheGet (getEmergencyNumber cache code ApiOutcome.failure).2.1 code
      = some none
  ∧ getEmergencyNumber
        (getEmergencyNumber cache code ApiOutcome.failure).2.1 code api₂
      = (none, (getEmergencyNumber cache code ApiOutcome.failure).2.1,
         false) := by
  have h1 : (getEmergencyNumber cache code ApiOutcome.failure).1 = none := by
    simp only [getEmergencyNumber, hmiss, parseApi, hfb]
  refine ⟨h1, ?_, ?_⟩
  · rw [getEmergencyNumber_caches, h1]
  · apply getEmergencyNumber_hit
    rw [getEmergencyNumber_caches, h1]

/-- Witness for C10: "JP" is not in the fallback table; a failed lookup
caches `None` and a later lookup answers from the cache. -/
theorem claim_C10_witness :
    (getEmergencyNumber [] "JP" ApiOutcome.failure).1 = none
  ∧ cacheGet (getEmergencyNumber [] "JP" ApiOutcome.failure).2.1 "JP"
      = some none
  ∧ getEmergencyNumber
        (getEmergencyNumber [] "JP" ApiOutcome.failure).2.1 "JP"
        ApiOutcome.failure
      = (none, (getEmergencyNumber [] "JP" ApiOutcome.failure).2.1, false) :=
  claim_C10 [] "JP" ApiOutcome.failure (by with_unfolding_all decide) rfl

/-- A JSON-like value, for the opaque enrichment payloads. -/
inductive Val where
  | s : String → Val
  | q : ℚ → Val
  | b : Bool → Val
  | arr : List Val → Val
  | obj : List (String × Val) → Val
deriving Repr

/-- `negative_words` from `_analyze_sentiment`. -/
def negativeWords : List String :=
  ["frustrated", "angry", "upset", "terrible", "horrible", "worst",
   "disappointed", "furious", "outraged", "unacceptable", "disaster"]

/-- `positive_words` from `_analyze_sentiment`. -/
def positiveWords : List String :=
  ["great", "excellent", "wonderful", "amazing", "fantastic",
   "perfect", "love", "thank you", "appreciate", "helpful"]

/-- `urgent_words` from `_analyze_sentiment`. -/
def urgentToneWords : List String :=
  ["urgent", "emergency", "asap", "immediately", "help", "stuck", "stranded"]

/-- `EnrichmentService._analyze_sentiment`: keyword-count scoring; the
final `return` makes the neutral dict the default, so the result is always
a non-empty (truthy) dict. -/
def analyzeSentiment (text : String) : Val :=
  let tl := lowerStr text
  let nc := countMatches negativeWords tl
  let pc := countMatches positiveWords tl
  let uc := countMatches urgentToneWords tl
  if pc < nc ∧ 0 < nc then
    Val.obj [("mood", Val.s "negative"),
             ("intensity", Val.q (pymin (mkRat nc 3) (mkRat 1 1)))]
  else if 0 < pc then
    Val.obj [("mood", Val.s "positive"),
             ("intensity", Val.q (pymin (mkRat pc 3) (mkRat 1 1)))]
  else if 0 < uc then
    Val.obj [("mood", Val.s "stressed"),
             ("intensity", Val.q (pymin (mkRat uc 2) (mkRat 1 1)))]
  else
    Val.obj [("mood", Val.s "neutral"), ("intensity", Val.q (mkRat 1 2))]

/-- `EnrichmentService._detect_travel_phase`: fixed priority
in_transit > post_travel > pre_travel, key omitted when nothing matches. -/
def detectTravelPhase (text : String) : Option String :=
  let tl := lowerStr text
  let preTravel := ["planning", "booking", "will travel", "next month",
    "next week", "planning to visit", "want to book", "looking for"]
  let inTransit := ["currently in", "right now", "at the airport",
    "on the plane", "arrived", "here now", "just landed", "checking in"]
  let postTravel := ["just returned", "came back", "was in", "visited last",
    "trip was", "during my stay"]
  if inTransit.any (containsSub tl) then some "in_transit"
  else if postTravel.any (containsSub tl) then some "post_travel"
  else if preTravel.any (containsSub tl) then some "pre_travel"
  else none

/-- `disruption_types` from `_detect_travel_disruption`, in source order. -/
def disruptionTypes : List (String × List String) :=
  [("flight_delay", ["delayed", "delay", "late flight", "postponed"]),
   ("cancellation", ["cancelled", "canceled", "cancellation"]),
   ("lost_luggage", ["lost luggage", "missing bag", "baggage"]),
   ("missed_connection",
    ["missed connection", "missed flight", "tight connection"]),
   ("weather", ["weather", "storm", "snow", "fog", "hurricane"]),
   ("strike", ["strike", "industrial action", "staff shortage"])]

/-- `EnrichmentService._detect_travel_disruption`: first category with any
keyword hit. -/
def detectTravelDisruption (text : String) : Option String :=
  let tl := lowerStr text
  (disruptionTypes.find? (fun p => p.2.any (containsSub tl))).map Prod.fst

/-- `EnrichmentService._generate_support_recommendations`.  The external
call's outcome is `recOutcome`: `none` for any failure (exception,
timeout, non-JSON output — the function catches and returns `None`),
`some result` for the parsed JSON object.  Note the source returns the
parsed object wrapped in a fresh dict:
`return {"support_recommendations": result}`. -/
def generateSupportRecommendations (recOutcome : Option Val) : Option Val :=
  recOutcome.map (fun result => Val.obj [("support_recommendations", result)])

/-- `EnrichmentService._generate_creative_enrichments`: sentiment (always
present — the sentiment dict is always truthy), travel phase, disruption
type and the support-recommendations block, in insertion order. -/
def generateCreativeEnrichments (text : String) (recOutcome : Option Val) :
    List (String × Val) :=
  [("sentiment_analysis", analyzeSentiment text)]
  ++ (match detectTravelPhase text with
      | some p => [("travel_phase", Val.s p)]
      | none => [])
  ++ (match detectTravelDisruption text with
      | some d => [("disruption_type", Val.s d)]
      | none => [])
  ++ (match generateSupportRecommendations recOutcome with
      | some w => [("support_recommendations", w)]
      | none => [])

/-- `self.city_to_country` from `EnrichmentService.__init__`: the base
dict merged with the large `update` block.  No key receives two different
values across the two literals, so a first-match lookup over their
concatenation is equivalent to Python's last-writer-wins dict. -/
def cityToCountry : List (String × String) :=
  [("madrid", "ES"), ("berlin", "DE"), ("amsterdam", "NL"), ("vienna", "AT"),
   ("prague", "CZ"), ("budapest", "HU"), ("barcelona", "ES"),
   ("lisbon", "PT"), ("dublin", "IE"), ("athens", "GR"),
   ("copenhagen", "DK"), ("stockholm", "SE"), ("oslo", "NO"),
   ("zurich", "CH"), ("geneva", "CH"), ("brussels", "BE"),
   ("florence", "IT"), ("venice", "IT"), ("milan", "IT"), ("naples", "IT"),
   ("nice", "FR"), ("lyon", "FR"), ("marseille", "FR"), ("munich", "DE"),
   ("cologne", "DE"), ("hamburg", "DE"), ("frankfurt", "DE"),
   ("bologna", "IT"), ("turin", "IT"), ("valencia", "ES"), ("seville", "ES"),
   ("bilbao", "ES"), ("porto", "PT"),
   ("new york", "US"), ("nyc", "US"), ("new york city", "US"),
   ("san francisco", "US"), ("los angeles", "US"), ("chicago", "US"),
   ("boston", "US"), ("washington dc", "US"), ("miami", "US"),
   ("orlando", "US"), ("new orleans", "US"), ("houston", "US"),
   ("austin", "US"), ("dallas", "US"), ("denver", "US"),
   ("las vegas", "US"), ("phoenix", "US"), ("seattle", "US"),
   ("portland", "US"), ("san diego", "US"), ("honolulu", "US"),
   ("napa", "US"),
   ("vancouver", "CA"), ("montreal", "CA"), ("quebec city", "CA"),
   ("calgary", "CA"), ("ottawa", "CA"), ("edmonton", "CA"),
   ("winnipeg", "CA"), ("victoria", "CA"), ("toronto", "CA"),
   ("mexico city", "MX"), ("guadalajara", "MX"), ("monterrey", "MX"),
   ("oaxaca", "MX"), ("cancun", "MX"), ("tulum", "MX"),
   ("playa del carmen", "MX"), ("puerto vallarta", "MX"),
   ("san miguel de allende", "MX"), ("cabo san lucas", "MX"),
   ("los cabos", "MX"),
   ("san juan", "PR"), ("nassau", "BS"), ("havana", "CU"),
   ("punta cana", "DO"), ("kingston", "JM"), ("montego bay", "JM"),
   ("rio de janeiro", "BR"), ("sao paulo", "BR"), ("são paulo", "BR"),
   ("buenos aires", "AR"), ("mendoza", "AR"), ("santiago", "CL"),
   ("valparaiso", "CL"), ("lima", "PE"), ("cusco", "PE"), ("bogota", "CO"),
   ("medellin", "CO"), ("cartagena", "CO"), ("quito", "EC"),
   ("guayaquil", "EC"), ("la paz", "BO"), ("montevideo", "UY"),
   ("london", "GB"), ("edinburgh", "GB"), ("glasgow", "GB"),
   ("manchester", "GB"), ("liverpool", "GB"), ("birmingham", "GB"),
   ("cardiff", "GB"), ("belfast", "GB"),
   ("paris", "FR"), ("bordeaux", "FR"), ("toulouse", "FR"),
   ("cannes", "FR"), ("strasbourg", "FR"),
   ("malaga", "ES"), ("granada", "ES"), ("ibiza", "ES"),
   ("palma de mallorca", "ES"), ("san sebastian", "ES"),
   ("san sebastián", "ES"), ("santiago de compostela", "ES"),
   ("rome", "IT"), ("sorrento", "IT"), ("positano", "IT"), ("capri", "IT"),
   ("modena", "IT"), ("bari", "IT"), ("genoa", "IT"), ("palermo", "IT"),
   ("catania", "IT"), ("verona", "IT"), ("como", "IT"), ("lake como", "IT"),
   ("basel", "CH"), ("lausanne", "CH"), ("lucerne", "CH"),
   ("interlaken", "CH"), ("zermatt", "CH"), ("st moritz", "CH"),
   ("st. moritz", "CH"),
   ("faro", "PT"), ("coimbra", "PT"), ("madeira", "PT"),
   ("stuttgart", "DE"), ("leipzig", "DE"), ("dresden", "DE"),
   ("nuremberg", "DE"), ("nürnberg", "DE"), ("hannover", "DE"),
   ("heidelberg", "DE"), ("freiburg", "DE"), ("dusseldorf", "DE"),
   ("duesseldorf", "DE"),
   ("salzburg", "AT"), ("innsbruck", "AT"),
   ("rotterdam", "NL"), ("the hague", "NL"), ("utrecht", "NL"),
   ("antwerp", "BE"), ("bruges", "BE"), ("ghent", "BE"),
   ("helsinki", "FI"), ("turku", "FI"), ("gothenburg", "SE"),
   ("malmo", "SE"), ("göteborg", "SE"), ("målmö", "SE"), ("bergen", "NO"),
   ("reykjavik", "IS"), ("aarhus", "DK"), ("riga", "LV"), ("tallinn", "EE"),
   ("vilnius", "LT"),
   ("warsaw", "PL"), ("krakow", "PL"), ("kraków", "PL"), ("gdansk", "PL"),
   ("wroclaw", "PL"), ("wrocław", "PL"), ("bratislava", "SK"),
   ("ljubljana", "SI"), ("zagreb", "HR"), ("split", "HR"),
   ("dubrovnik", "HR"), ("belgrade", "RS"), ("bucharest", "RO"),
   ("cluj", "RO"), ("sofia", "BG"), ("sarajevo", "BA"), ("budva", "ME"),
   ("thessaloniki", "GR"), ("mykonos", "GR"), ("santorini", "GR"),
   ("heraklion", "GR"), ("chania", "GR"), ("istanbul", "TR"),
   ("ankara", "TR"), ("antalya", "TR"), ("bodrum", "TR"), ("izmir", "TR"),
   ("dubai", "AE"), ("abu dhabi", "AE"), ("doha", "QA"), ("muscat", "OM"),
   ("salalah", "OM"), ("amman", "JO"), ("petra", "JO"), ("beirut", "LB"),
   ("jerusalem", "IL"), ("tel aviv", "IL"), ("haifa", "IL"),
   ("riyadh", "SA"), ("jeddah", "SA"),
   ("cairo", "EG"), ("alexandria", "EG"), ("marrakesh", "MA"),
   ("marrakech", "MA"), ("casablanca", "MA"), ("fes", "MA"), ("fès", "MA"),
   ("rabat", "MA"), ("nairobi", "KE"), ("cape town", "ZA"),
   ("johannesburg", "ZA"), ("durban", "ZA"), ("tunis", "TN"),
   ("tokyo", "JP"), ("kyoto", "JP"), ("osaka", "JP"), ("sapporo", "JP"),
   ("hakone", "JP"), ("fukuoka", "JP"), ("seoul", "KR"), ("busan", "KR"),
   ("jeju", "KR"), ("beijing", "CN"), ("shanghai", "CN"), ("chengdu", "CN"),
   ("xian", "CN"), ("xi\x27an", "CN"), ("shenzhen", "CN"),
   ("guangzhou", "CN"), ("hangzhou", "CN"), ("suzhou", "CN"),
   ("hong kong", "HK"), ("macau", "MO"), ("taipei", "TW"),
   ("kaohsiung", "TW"), ("singapore", "SG"), ("bangkok", "TH"),
   ("phuket", "TH"), ("chiang mai", "TH"), ("hanoi", "VN"),
   ("ho chi minh city", "VN"), ("saigon", "VN"), ("kuala lumpur", "MY"),
   ("penang", "MY"), ("langkawi", "MY"), ("jakarta", "ID"),
   ("denpasar", "ID"), ("ubud", "ID"), ("yogyakarta", "ID"), ("bali", "ID"),
   ("delhi", "IN"), ("new delhi", "IN"), ("mumbai", "IN"),
   ("bengaluru", "IN"), ("bangalore", "IN"), ("chennai", "IN"),
   ("kolkata", "IN"), ("hyderabad", "IN"), ("jaipur", "IN"),
   ("udaipur", "IN"), ("goa", "IN"), ("agra", "IN"), ("varanasi", "IN"),
   ("islamabad", "PK"), ("lahore", "PK"), ("karachi", "PK"),
   ("colombo", "LK"), ("male", "MV"), ("kathmandu", "NP"), ("dhaka", "BD"),
   ("sydney", "AU"), ("melbourne", "AU"), ("brisbane", "AU"),
   ("perth", "AU"), ("adelaide", "AU"), ("hobart", "AU"),
   ("gold coast", "AU"), ("cairns", "AU"), ("auckland", "NZ"),
   ("queenstown", "NZ"), ("wellington", "NZ"), ("christchurch", "NZ")]

/-- `self.city_to_country.get(city_name)`. -/
def cityCountryGet (city : String) : Option String :=
  (cityToCountry.find? (fun p => p.1 == city)).map Prod.snd

/-- The resolution loop of `_get_emergency_numbers`: resolve each country
code in turn, threading the cache, collecting the found numbers. -/
def resolveCodes (api : String → ApiOutcome) :
    List String → EmergencyCache → List String × EmergencyCache
  | [], cache => ([], cache)
  | code :: rest, cache =>
    let r := getEmergencyNumber cache code (api code)
    let (nums, cache') := resolveCodes api rest r.2.1
    match r.1 with
    | some n => (n :: nums, cache')
    | none => (nums, cache')

/-- Insertion into a lexicographically sorted string list. -/
def insertSorted (x : String) : List String → List String
  | [] => [x]
  | y :: ys => if x ≤ y then x :: y :: ys else y :: insertSorted x ys

/-- Python `sorted(...)` on strings. -/
def sortStrings (l : List String) : List String :=
  l.foldr insertSorted []

/-- `EnrichmentService._get_emergency_numbers`: city entities → country
codes → resolved numbers, rendered as `sorted(list(set(...)))`, `None`
when there is no city entity or nothing resolved. -/
def getEmergencyNumbers (entities : List Entity) (cache : EmergencyCache)
    (api : String → ApiOutcome) : Option (List String) × EmergencyCache :=
  let cityEntities := entities.filter (fun e => e.type = EntityType.city)
  match cityEntities with
  | [] => (none, cache)
  | _ =>
    let codes := cityEntities.filterMap
      (fun e => cityCountryGet (String.mk (lowerStr e.value)))
    let (nums, cache') := resolveCodes api codes cache
    match sortStrings nums.eraseDups with
    | [] => (none, cache')
    | out => (some out, cache')

/-- `EnrichmentService.generate_enrichments`: the emergency-number block
plus the creative enrichments, `None` when the bag ends up empty.  The
`category` argument is only forwarded into the recommendation prompt,
whose outcome is `recOutcome`. -/
def generateEnrichments (text : String) (entities : List Entity)
    (_category : Category) (cache : EmergencyCache)
    (api : String → ApiOutcome) (recOutcome : Option Val) :
    Option (List (String × Val)) × EmergencyCache :=
  let (nums, cache') := getEmergencyNumbers entities cache api
  let base := match nums with
    | some ns => [("local_emergency_numbers", Val.arr (ns.map Val.s))]
    | none => []
  let bag := base ++ generateCreativeEnrichments text recOutcome
  (match bag with
   | [] => none
   | _ => some bag, cache')

/-- Dict lookup in the (possibly absent) enrichment bag. -/
def bagGet (bag : Option (List (String × Val))) (k : String) : Option Val :=
  match bag with
  | none => none
  | some l => (l.find? (fun p => p.1 == k)).map Prod.snd

/-- A concrete successful recommendation payload with the six fixed
fields, for the C9 counterexample. -/
def recObjC9 : Val :=
  Val.obj [("priority_actions", Val.arr [Val.s "call the airline"]),
           ("recommended_resources", Val.arr [Val.s "rebooking desk"]),
           ("escalation_needed", Val.b false),
           ("estimated_resolution_time", Val.s "15 minutes"),
           ("follow_up_required", Val.b true),
           ("specialist_referral", Val.s "none")]

/-- Counterexample to C9 as stated.  When the external recommendation call
succeeds, the bag does NOT map `support_recommendations` directly to the
returned six-field object: `_generate_support_recommendations` returns
`{"support_recommendations": result}` and the caller stores that wrapper
under the same key again, so the bag holds a doubly-nested object. -/
theorem claim_C9_counterexample :
    bagGet (generateEnrichments "hello" [] Category.base []
        (fun _ => ApiOutcome.failure) (some recObjC9)).1
        "support_recommendations"
      = some (Val.obj [("support_recommendations", recObjC9)])
  ∧ bagGet (generateEnrichments "hello" [] Category.base []
        (fun _ => ApiOutcome.failure) (some recObjC9)).1
        "support_recommendations"
      ≠ some recObjC9 := by
  have h1 : bagGet (generateEnrichments "hello" [] Category.base []
      (fun _ => ApiOutcome.failure) (some recObjC9)).1
      "support_recommendations"
      = some (Val.obj [("support_recommendations", recObjC9)]) := by
    rfl
  refine ⟨h1, ?_⟩
  rw [h1]
  intro h
  rw [Option.some.injEq, recObjC9] at h
  simp at h

/-- **C9 (amended).** When the external recommendation call succeeds and
returns the strict-JSON object with the six fixed fields, the enrichment
bag maps the key `support_recommendations` to a one-key wrapper object
`{"support_recommendations": <that object>}` (the helper wraps its result
and the caller stores the wrapper); on any failure of the call, the
`support_recommendations` key is absent from the bag. -/
theorem claim_C9_amended (text : String) (entities : List Entity)
    (cat : Category) (cache : EmergencyCache) (api : String → ApiOutcome) :
    (∀ result : Val,
      bagGet (generateEnrichments text entities cat cache api
          (some result)).1 "support_recommendations"
        = some (Val.obj [("support_recommendations", result)]))
  ∧ bagGet (generateEnrichments text entities cat cache api none).1
      "support_recommendations" = none := by
  constructor
  · intro result
    simp only [generateEnrichments, generateCreativeEnrichments,
      generateSupportRecommendations, Option.map_some]
    cases hnums : (getEmergencyNumbers entities cache api).1 <;>
      cases hph : detectTravelPhase text <;>
        cases hdi : detectTravelDisruption text <;>
          simp [bagGet, List.find?]
  · simp only [generateEnrichments, generateCreativeEnrichments,
      generateSupportRecommendations, Option.map_none]
    cases hnums : (getEmergencyNumbers entities cache api).1 <;>
      cases hph : detectTravelPhase text <;>
        cases hdi : detectTravelDisruption text <;>
          simp [bagGet, List.find?]

end ForaChat
